import Mathlib

/-!
Shallow embedding of `src/chaos_monkeys_ai.py` (the chaos-monkeys game agent),
with theorems settling the frozen claims about its decision engine.

Conventions of the embedding:
* Python `set` objects become `Finset String` (uids are strings in the engine).
* Engine-computed distances (`get_distance`) are external to the agent; they are
  passed in as function parameters or as precomputed rational values.
* `np.random.random()`-derived headings are passed in as parameters.
* Fallible dictionary lookups (`defaultdict(None).__getitem__`, which raises
  `KeyError` on a missing key because the default factory is `None`) are
  modelled with `Except Unit`.
-/

namespace ChaosMonkeys

/-! ## Production planner (lines 14-18, 39-92, 128-151, 455-457) -/

/-- Stage item categories, the `item` strings of the Python `Stage` dataclass. -/
inductive Item where
  | mines
  | tanks_def
  | tanks_att
  | ships
  | jets
deriving DecidableEq, Repr

/-- The build actions a `Stage` can carry (`action` field, bound methods in Python). -/
inductive Action where
  | build_mine
  | build_tank_def
  | build_tank_att
  | build_ship
  | build_jet
deriving DecidableEq, Repr

/-- The `Stage` dataclass: `item`, `count`, `action` (lines 14-18). -/
structure Stage where
  item : Item
  count : Nat
  action : Action
deriving DecidableEq, Repr

/-- The agent's per-base bookkeeping: the slices of `self.ntanks_def`,
`self.ntanks_att`, `self.nships`, `self.njets`, `self.tanks_def`,
`self.tanks_att`, `self.ships`, `self.jets_def` for one base uid
(initialised at lines 246-259 and `defaultdict(set)` at line 36). -/
structure BaseRoster where
  ntanks_def : Nat
  ntanks_att : Nat
  nships : Nat
  njets : Nat
  tanks_def : Finset String
  tanks_att : Finset String
  ships : Finset String
  jets_def : Finset String
deriving DecidableEq

/-- Zero-initialised roster for a base uid seen for the first time (lines 246-259). -/
def init_roster : BaseRoster :=
  { ntanks_def := 0, ntanks_att := 0, nships := 0, njets := 0
    tanks_def := ∅, tanks_att := ∅, ships := ∅, jets_def := ∅ }

/-- Python `already_built_ships_and_not_jet` (lines 455-457): true when the all-time
ship counter `nships` has reached `desired_count` and no jet is tracked. -/
def already_built_ships_and_not_jet (r : BaseRoster) (desired_count : Nat) : Bool :=
  desired_count ≤ r.nships && r.jets_def.card == 0

/-- The stage table `PlayerAi.stages` (lines 74-92), in declaration order. -/
def stages : List Stage :=
  [ ⟨.mines, 2, .build_mine⟩
  , ⟨.tanks_def, 3, .build_tank_def⟩
  , ⟨.ships, 1, .build_ship⟩
  , ⟨.tanks_att, 1, .build_tank_att⟩
  , ⟨.mines, 3, .build_mine⟩
  , ⟨.ships, 2, .build_ship⟩
  , ⟨.tanks_def, 6, .build_tank_def⟩
  , ⟨.jets, 1, .build_jet⟩
  , ⟨.ships, 2, .build_jet⟩
  , ⟨.tanks_def, 9, .build_tank_def⟩
  , ⟨.tanks_att, 2, .build_tank_att⟩
  , ⟨.ships, 2, .build_ship⟩
  , ⟨.jets, 2, .build_jet⟩
  , ⟨.ships, 3, .build_ship⟩
  , ⟨.tanks_def, 10, .build_tank_def⟩
  , ⟨.jets, 1, .build_jet⟩
  , ⟨.tanks_att, 5, .build_tank_att⟩ ]

/-- The per-stage trigger test of `get_next_stage` (lines 132-150): a stage
fires when its associated count is below its threshold; a `ships` stage is
additionally skipped when `already_built_ships_and_not_jet` is truthy. -/
def stage_unsatisfied (mines : Nat) (r : BaseRoster) (st : Stage) : Bool :=
  match st.item with
  | .mines => decide (mines < st.count)
  | .tanks_def => decide (r.tanks_def.card < st.count)
  | .tanks_att => decide (r.tanks_att.card < st.count)
  | .ships =>
      !already_built_ships_and_not_jet r st.count && decide (r.ships.card < st.count)
  | .jets => decide (r.jets_def.card < st.count)

/-- The `for stage in self.stages` scan of `get_next_stage` (lines 133-150):
returns the index and action of the first unsatisfied stage, if any. -/
def scan_stages (mines : Nat) (r : BaseRoster) : List Stage → Nat → Option (Nat × Action)
  | [], _ => none
  | st :: rest, i =>
      if stage_unsatisfied mines r st then some (i, st.action)
      else scan_stages mines r rest (i + 1)

/-- The fallback rotation `cycle` (lines 128-130): an `itertools.cycle` over
`(build_tank_def, build_jet, build_tank_att, build_ship)`, embedded as an
explicit index into the 4-element rotation. -/
def cycle (i : Nat) : Action :=
  match i % 4 with
  | 0 => .build_tank_def
  | 1 => .build_jet
  | 2 => .build_tank_att
  | _ => .build_ship

/-- Python `get_next_stage` (lines 132-151): first-unsatisfied stage action, else the
next element of the per-base rotation (whose index advances only then).
Returns the chosen action and the updated rotation index. -/
def get_next_stage (mines : Nat) (r : BaseRoster) (i : Nat) : Action × Nat :=
  match scan_stages mines r stages 0 with
  | some (_, a) => (a, i)
  | none => (cycle i, i + 1)

/-- Runs `n` successive calls of `get_next_stage` on a fixed observation,
threading the rotation index, collecting the chosen actions. -/
def call_seq (mines : Nat) (r : BaseRoster) : Nat → Nat → List Action
  | 0, _ => []
  | n + 1, i =>
      (get_next_stage mines r i).1 :: call_seq mines r n (get_next_stage mines r i).2

/-! Build operations (lines 39-72). Each takes the base's crystal stock, the
engine cost of the item, and the uid the engine returns for the new unit. -/

/-- Python `build_tank_def` (lines 43-49). -/
def build_tank_def (crystal cost : Nat) (uid : String) (r : BaseRoster) : BaseRoster :=
  if cost < crystal then
    { r with tanks_def := insert uid r.tanks_def, ntanks_def := r.ntanks_def + 1 }
  else r

/-- Python `build_tank_att` (lines 51-57). -/
def build_tank_att (crystal cost : Nat) (uid : String) (r : BaseRoster) : BaseRoster :=
  if cost < crystal then
    { r with tanks_att := insert uid r.tanks_att, ntanks_att := r.ntanks_att + 1 }
  else r

/-- Python `build_ship` (lines 59-65). -/
def build_ship (crystal cost : Nat) (uid : String) (r : BaseRoster) : BaseRoster :=
  if cost < crystal then
    { r with nships := r.nships + 1, ships := insert uid r.ships }
  else r

/-- Python `build_jet` (lines 67-72). The uid is registered in `jets_def`; the
increment of `njets` is commented out in the source (line 71). -/
def build_jet (crystal cost : Nat) (uid : String) (r : BaseRoster) : BaseRoster :=
  if cost < crystal then
    { r with jets_def := insert uid r.jets_def }
  else r

/-- Python `update_vehicles` (lines 94-126) restricted to one base's roster: drop
every tracked uid absent from the live uid list of its kind; counters untouched. -/
def update_vehicles (alive_tanks alive_ships alive_jets : List String)
    (r : BaseRoster) : BaseRoster :=
  { r with
    tanks_att := r.tanks_att.filter (· ∈ alive_tanks)
    tanks_def := r.tanks_def.filter (· ∈ alive_tanks)
    ships := r.ships.filter (· ∈ alive_ships)
    jets_def := r.jets_def.filter (· ∈ alive_jets) }

/-- The defense-to-attack reassignment on base loss (lines 361-366): when the
tank's uid is tracked as a defense tank of its (destroyed) owning base, move
it to the attack set. -/
def reassign_on_base_loss (uid : String) (r : BaseRoster) : BaseRoster :=
  if uid ∈ r.tanks_def then
    { r with tanks_def := r.tanks_def.erase uid, tanks_att := insert uid r.tanks_att }
  else r

/-- The operations of the agent that touch a base's roster, for stating
invariants quantified over all of them. -/
inductive RosterOp where
  | op_build_tank_def (crystal cost : Nat) (uid : String)
  | op_build_tank_att (crystal cost : Nat) (uid : String)
  | op_build_ship (crystal cost : Nat) (uid : String)
  | op_build_jet (crystal cost : Nat) (uid : String)
  | op_update_vehicles (alive_tanks alive_ships alive_jets : List String)
  | op_reassign_on_base_loss (uid : String)

/-- Apply a roster operation. -/
def RosterOp.apply : RosterOp → BaseRoster → BaseRoster
  | .op_build_tank_def crystal cost uid, r => build_tank_def crystal cost uid r
  | .op_build_tank_att crystal cost uid, r => build_tank_att crystal cost uid r
  | .op_build_ship crystal cost uid, r => build_ship crystal cost uid r
  | .op_build_jet crystal cost uid, r => build_jet crystal cost uid r
  | .op_update_vehicles t s j, r => update_vehicles t s j r
  | .op_reassign_on_base_loss uid, r => reassign_on_base_loss uid r

/-- Freshness of an engine-returned uid: `base.build_tank()` returns the uid of
a tank that was just built, so it is tracked in no tank role set yet. -/
def RosterOp.fresh : RosterOp → BaseRoster → Prop
  | .op_build_tank_def _ _ uid, r => uid ∉ r.tanks_def ∧ uid ∉ r.tanks_att
  | .op_build_tank_att _ _ uid, r => uid ∉ r.tanks_def ∧ uid ∉ r.tanks_att
  | _, _ => True

/-! ## Python `min` with a key function

`min(iterable, key=k, default=None)` returns the first element attaining the
minimal key, or the default on an empty iterable; with a non-empty iterable the
key is evaluated on every element. -/

/-- Left fold of Python `min(..., key=...)`: the running best is replaced only
on a strictly smaller key, so the first minimal element wins. -/
def py_min_aux {α : Type} (key : α → ℚ) (best : α) : List α → α
  | [] => best
  | x :: l => py_min_aux key (if key x < key best then x else best) l

/-- Python `min(iterable, key=..., default=None)`. -/
def py_min {α : Type} (key : α → ℚ) : List α → Option α
  | [] => none
  | a :: l => some (py_min_aux key a l)

/-! ## Threat detector (lines 260-271) -/

/-- An enemy vehicle as the threat scan sees it: its position. -/
structure EnemyVehicle where
  x : ℚ
  y : ℚ
deriving DecidableEq

/-- The per-base threat computation of `run` (lines 260-271): `d v` is
`base.get_distance(v.x, v.y)`. The nearest enemy vehicle's position is
recorded iff its distance to the base is strictly below 100; otherwise
(and with no enemy vehicles at all) absence is recorded. -/
def threat_for_base (d : EnemyVehicle → ℚ) (enemies : List EnemyVehicle) :
    Option (ℚ × ℚ) :=
  match py_min d enemies with
  | none => none
  | some e => if d e < 100 then some (e.x, e.y) else none

/-! ## Ship movement (lines 386-402) -/

/-- Commands a ship can be issued during its per-tick step. -/
inductive ShipCmd where
  | convert_to_base
  | set_heading (h : ℚ)
deriving DecidableEq, BEq

/-- Per-ship step of `run` (lines 387-402). `prev` is
`self.previous_positions.get(ship.uid)`, `pos` is `ship.position`,
`base_dists` lists `ship.get_distance(base.x, base.y, shortest=True)` for
every base of every team, and `rand` is the sampled heading
`np.random.random() * 360`. -/
def ship_step (prev : Option (ℚ × ℚ)) (pos : ℚ × ℚ) (base_dists : List ℚ)
    (rand : ℚ) : List ShipCmd :=
  match prev with
  | none => []
  | some p =>
      if pos = p then
        if base_dists.all (fun d => decide (60 < d)) then [.convert_to_base]
        else [.set_heading rand]
      else []

/-! ## Defense-tank patrol band (lines 343-349) -/

/-- Commands a tank can be issued by the patrol-band check. -/
inductive TankCmd where
  | set_heading (h : ℚ)
  | set_vector (v : ℚ × ℚ)
deriving DecidableEq

/-- The patrol-band step for a tank tracked in `tanks_def[base.uid]`
(lines 346-349): `dist` is `tank.get_distance(base.x, base.y, shortest=True)`;
inside the open band `40 < dist < 50` the heading is negated and the heading
vector multiplied by `-1`. -/
def tank_def_patrol (dist : ℚ) (heading : ℚ) (vector : ℚ × ℚ) : List TankCmd :=
  if 40 < dist ∧ dist < 50 then
    [.set_heading (-heading), .set_vector (-vector.1, -vector.2)]
  else []

/-! ## Jet control (lines 404-447), with its fallible dictionary lookups -/

/-- Position of a base in the snapshot, with its uid. -/
structure BaseInfo where
  uid : String
  x : ℚ
  y : ℚ
deriving DecidableEq

/-- Position of an enemy ship. -/
structure ShipInfo where
  x : ℚ
  y : ℚ
deriving DecidableEq

/-- An owned jet as the jet loop sees it. -/
structure JetInfo where
  uid : String
  owner_uid : String
  x : ℚ
  y : ℚ
  heading : ℚ
deriving DecidableEq

/-- Commands a jet can be issued during its per-tick step. -/
inductive JetCmd where
  | goto (x y : ℚ)
  | set_heading (h : ℚ)
deriving DecidableEq

/-- Lookup `__getitem__` on a `defaultdict(None)` rebuilt this tick as an association
list: the default factory is `None`, so a missing key raises `KeyError`,
modelled as `Except.error ()`. -/
def dd_get {β : Type} (m : List (String × β)) (k : String) : Except Unit β :=
  match m.find? (fun p => p.1 == k) with
  | some p => .ok p.2
  | none => .error ()

/-- Python `get_base_by_uid` (lines 487-492): scan every team's bases in order. -/
def get_base_by_uid (all_bases : List BaseInfo) (uid : String) : Option BaseInfo :=
  all_bases.find? (fun b => b.uid == uid)

/-- Python `find_nearest_enemy_ship` (lines 470-485). Here `gd p q` models the engine
distance between points `p` and `q`. With no enemy ships, `min` returns the
default without evaluating the key, so a `None` base is harmless; with enemy
ships present, a `None` base makes `base.get_distance` raise
(`AttributeError`), modelled as `Except.error ()`. The result is returned only
when the limit is truthy (non-zero) and the distance is strictly below it. -/
def find_nearest_enemy_ship (gd : ℚ × ℚ → ℚ × ℚ → ℚ) (enemy_ships : List ShipInfo)
    (base : Option BaseInfo) (distance_limit : ℚ) : Except Unit (Option ShipInfo) :=
  match enemy_ships with
  | [] => .ok none
  | s :: rest =>
      match base with
      | none => .error ()
      | some b =>
          let r := py_min_aux (fun sh => gd (b.x, b.y) (sh.x, sh.y)) s rest
          .ok (if distance_limit ≠ 0 ∧ gd (b.x, b.y) (r.x, r.y) < distance_limit
               then some r else none)

/-- The `bases_under_attack` dictionary after the base loop of `run`
(lines 243-271): rebuilt each tick with exactly the agent's live bases as
keys. -/
def bases_under_attack_map (gd : ℚ × ℚ → ℚ × ℚ → ℚ) (my_bases : List BaseInfo)
    (enemy_vehicles : List EnemyVehicle) : List (String × Option (ℚ × ℚ)) :=
  my_bases.map fun b =>
    (b.uid, threat_for_base (fun v => gd (b.x, b.y) (v.x, v.y)) enemy_vehicles)

/-- Python `get_target_per_base` (lines 459-468): keys are exactly the agent's live
base uids; values are the nearest enemy base, absent when there is none. -/
def get_target_per_base (gd : ℚ × ℚ → ℚ × ℚ → ℚ) (my_bases enemy_bases : List BaseInfo) :
    List (String × Option BaseInfo) :=
  my_bases.map fun b =>
    (b.uid, py_min (fun e => gd (b.x, b.y) (e.x, e.y)) enemy_bases)

/-- Branches (4) and (5) of the jet chain (lines 428-447): patrol toward the
nearest own base strictly inside the band (100, 110) with heading jitter
`(2 * rand1 - 1) * 30`; else, if the position matches the cached previous
position, randomize the heading to `rand2`. -/
def jet_patrol (gd : ℚ × ℚ → ℚ × ℚ → ℚ) (my_bases : List BaseInfo)
    (prev : Option (ℚ × ℚ)) (rand1 rand2 : ℚ) (jet : JetInfo) : List JetCmd :=
  match py_min (fun b => gd (jet.x, jet.y) (b.x, b.y))
      (my_bases.filter fun b =>
        decide (100 < gd (jet.x, jet.y) (b.x, b.y)) &&
        decide (gd (jet.x, jet.y) (b.x, b.y) < 110)) with
  | some nb => [.goto nb.x nb.y, .set_heading (jet.heading + (2 * rand1 - 1) * 30)]
  | none =>
      if prev = some (jet.x, jet.y) then [.set_heading rand2] else []

/-- The per-jet body of the jet loop of `run` (lines 406-446): the priority
chain, starting with the `self.bases_under_attack[jet.owner.uid]` lookup that
raises `KeyError` when the owning base uid is not a key of this tick's map. -/
def jet_step (gd : ℚ × ℚ → ℚ × ℚ → ℚ)
    (under_attack : List (String × Option (ℚ × ℚ)))
    (target_per_base : List (String × Option BaseInfo))
    (all_bases my_bases : List BaseInfo) (enemy_ships : List ShipInfo)
    (prev : Option (ℚ × ℚ)) (rand1 rand2 : ℚ) (jet : JetInfo) :
    Except Unit (List JetCmd) := do
  let ua ← dd_get under_attack jet.owner_uid
  match ua with
  | some (tx, ty) => pure [.goto tx ty]
  | none =>
      let enemy ← find_nearest_enemy_ship gd enemy_ships
        (get_base_by_uid all_bases jet.owner_uid) 300
      match enemy with
      | some s => pure [.goto s.x s.y]
      | none => do
          let tgt ← dd_get target_per_base jet.owner_uid
          match tgt with
          | some tb =>
              if gd (jet.x, jet.y) (tb.x, tb.y) ≠ 0 then pure [.goto tb.x tb.y]
              else pure (jet_patrol gd my_bases prev rand1 rand2 jet)
          | none => pure (jet_patrol gd my_bases prev rand1 rand2 jet)

/-- The whole jet loop (lines 405-447): each owned jet is processed in order;
the first raised exception aborts the `run` call. Previous positions are
looked up per jet uid; the two random draws are parameters. -/
def run_jets (gd : ℚ × ℚ → ℚ × ℚ → ℚ)
    (under_attack : List (String × Option (ℚ × ℚ)))
    (target_per_base : List (String × Option BaseInfo))
    (all_bases my_bases : List BaseInfo) (enemy_ships : List ShipInfo)
    (previous_positions : List (String × (ℚ × ℚ))) (rand1 rand2 : ℚ)
    (jets : List JetInfo) : Except Unit (List (List JetCmd)) :=
  jets.mapM fun jet =>
    jet_step gd under_attack target_per_base all_bases my_bases enemy_ships
      ((previous_positions.find? (fun p => p.1 == jet.uid)).map (·.2))
      rand1 rand2 jet

/-! ## Helper lemmas -/

/-- The running best of the Python `min` fold is the initial best or a list element. -/
theorem py_min_aux_mem {α : Type} (key : α → ℚ) :
    ∀ (l : List α) (best : α), py_min_aux key best l = best ∨ py_min_aux key best l ∈ l
  | [], _ => Or.inl rfl
  | x :: l, best => by
    simp only [py_min_aux]
    by_cases hc : key x < key best
    · rw [if_pos hc]
      rcases py_min_aux_mem key l x with h | h
      · exact Or.inr (by rw [h]; exact List.mem_cons_self x l)
      · exact Or.inr (List.mem_cons_of_mem x h)
    · rw [if_neg hc]
      rcases py_min_aux_mem key l best with h | h
      · exact Or.inl h
      · exact Or.inr (List.mem_cons_of_mem x h)

/-- The Python `min` fold attains the minimal key among the initial best and
the list elements. -/
theorem py_min_aux_le {α : Type} (key : α → ℚ) :
    ∀ (l : List α) (best : α),
      key (py_min_aux key best l) ≤ key best ∧
      ∀ x ∈ l, key (py_min_aux key best l) ≤ key x
  | [], _ => ⟨le_refl _, by simp⟩
  | x :: l, best => by
    simp only [py_min_aux]
    by_cases hc : key x < key best
    · rw [if_pos hc]
      obtain ⟨h1, h2⟩ := py_min_aux_le key l x
      refine ⟨h1.trans hc.le, ?_⟩
      intro y hy
      rcases List.mem_cons.mp hy with rfl | hy
      · exact h1
      · exact h2 y hy
    · rw [if_neg hc]
      obtain ⟨h1, h2⟩ := py_min_aux_le key l best
      refine ⟨h1, ?_⟩
      intro y hy
      rcases List.mem_cons.mp hy with rfl | hy
      · exact h1.trans (not_lt.mp hc)
      · exact h2 y hy

/-- The test `stage_unsatisfied` reads only the mine count, the four set sizes and the
all-time ship counter. -/
theorem stage_unsatisfied_congr (mines : Nat) (r r' : BaseRoster)
    (h1 : r.tanks_def.card = r'.tanks_def.card)
    (h2 : r.tanks_att.card = r'.tanks_att.card)
    (h3 : r.ships.card = r'.ships.card)
    (h4 : r.jets_def.card = r'.jets_def.card)
    (h5 : r.nships = r'.nships) (st : Stage) :
    stage_unsatisfied mines r st = stage_unsatisfied mines r' st := by
  obtain ⟨item, count, action⟩ := st
  cases item <;>
    simp [stage_unsatisfied, already_built_ships_and_not_jet, h1, h2, h3, h4, h5]

/-- The stage scan reads only the mine count, the set sizes and `nships`. -/
theorem scan_stages_congr (mines : Nat) (r r' : BaseRoster)
    (h1 : r.tanks_def.card = r'.tanks_def.card)
    (h2 : r.tanks_att.card = r'.tanks_att.card)
    (h3 : r.ships.card = r'.ships.card)
    (h4 : r.jets_def.card = r'.jets_def.card)
    (h5 : r.nships = r'.nships) :
    ∀ (l : List Stage) (i : Nat),
      scan_stages mines r l i = scan_stages mines r' l i := by
  intro l
  induction l with
  | nil => intro i; rfl
  | cons st rest ih =>
      intro i
      simp only [scan_stages, stage_unsatisfied_congr mines r r' h1 h2 h3 h4 h5 st,
        ih (i + 1)]

/-! ## Claim theorems -/

/-- C8: a tank tracked in a base's defense set whose wrap-shortest distance to
the base lies strictly between 40 and 50 gets its heading negated and its
heading vector multiplied by -1 that tick; at distance exactly 40 or exactly
50, no mutation is issued. -/
theorem c8_patrol_band (d h : ℚ) (v : ℚ × ℚ) :
    (40 < d → d < 50 →
      tank_def_patrol d h v = [.set_heading (-h), .set_vector (-v.1, -v.2)]) ∧
    (d = 40 ∨ d = 50 → tank_def_patrol d h v = []) := by
  constructor
  · intro hlo hhi
    simp [tank_def_patrol, hlo, hhi]
  · rintro (rfl | rfl) <;> norm_num [tank_def_patrol]

/-- Witness for C8 at distance 45 (inside the band) and at distance 40 (a
band boundary). -/
theorem c8_patrol_band_witness :
    tank_def_patrol 45 10 (1, 2) = [.set_heading (-10), .set_vector (-1, -2)] ∧
    tank_def_patrol 40 10 (1, 2) = [] :=
  ⟨(c8_patrol_band 45 10 (1, 2)).1 (by norm_num) (by norm_num),
   (c8_patrol_band 40 10 (1, 2)).2 (Or.inl rfl)⟩

/-- C6: a ship whose position equals its cached previous position issues
exactly one convert-to-base call when its wrap-shortest distance to every base
of every team strictly exceeds 60; otherwise it issues no conversion and a
single randomized set-heading instead. -/
theorem c6_ship_conversion (pos : ℚ × ℚ) (dists : List ℚ) (rand : ℚ) :
    ((∀ d ∈ dists, 60 < d) →
      ship_step (some pos) pos dists rand = [.convert_to_base] ∧
      (ship_step (some pos) pos dists rand).count .convert_to_base = 1) ∧
    ((∃ d ∈ dists, d ≤ 60) →
      (ship_step (some pos) pos dists rand).count .convert_to_base = 0 ∧
      ship_step (some pos) pos dists rand = [.set_heading rand]) := by
  constructor
  · intro hall
    have h : dists.all (fun d => decide (60 < d)) = true := by
      simp only [List.all_eq_true, decide_eq_true_eq]
      exact hall
    have hs : ship_step (some pos) pos dists rand = [.convert_to_base] := by
      simp [ship_step, h]
    exact ⟨hs, by rw [hs]; rfl⟩
  · rintro ⟨d, hd, hle⟩
    have h : dists.all (fun d => decide (60 < d)) = false := by
      simp only [List.all_eq_false, decide_eq_true_eq]
      exact ⟨d, hd, not_lt.mpr hle⟩
    have hs : ship_step (some pos) pos dists rand = [.set_heading rand] := by
      simp [ship_step, h]
    exact ⟨by rw [hs]; rfl, hs⟩

/-- Witness for C6: all-bases-far gives one conversion; a base within 60 gives
a randomized heading and no conversion. -/
theorem c6_ship_conversion_witness :
    ship_step (some (1, 2)) (1, 2) [70, 100] 7 = [.convert_to_base] ∧
    ship_step (some (1, 2)) (1, 2) [70, 50] 7 = [.set_heading 7] :=
  ⟨((c6_ship_conversion (1, 2) [70, 100] 7).1 (by norm_num)).1,
   ((c6_ship_conversion (1, 2) [70, 50] 7).2 ⟨50, by norm_num, by norm_num⟩).2⟩

/-- C3 counterexample: with crystal 10 exceeding cost 5, `build_jet` registers
the uid but leaves the jet counter `njets` unchanged (the increment is
commented out in the source), falsifying the claimed increment by one. -/
theorem c3_counterexample :
    (5 : Nat) < 10 ∧
    "j1" ∈ (build_jet 10 5 "j1" init_roster).jets_def ∧
    ¬ (build_jet 10 5 "j1" init_roster).njets = init_roster.njets + 1 := by
  refine ⟨by norm_num, ?_, ?_⟩ <;> simp [build_jet, init_roster]

/-- C3 amended: with crystal strictly above cost, `build_jet` registers the
returned uid in the base's jet role set and leaves the `njets` counter
unchanged; with insufficient crystal it is a no-op. -/
theorem c3_build_jet_registers (crystal cost : Nat) (uid : String) (r : BaseRoster) :
    (cost < crystal →
      (build_jet crystal cost uid r).jets_def = insert uid r.jets_def ∧
      (build_jet crystal cost uid r).njets = r.njets) ∧
    (¬ cost < crystal → build_jet crystal cost uid r = r) := by
  constructor <;> intro h <;> simp [build_jet, h]

/-- Witness for C3's amended statement at crystal 8 / cost 3 and crystal 2 /
cost 3. -/
theorem c3_build_jet_registers_witness :
    (build_jet 8 3 "j2" init_roster).jets_def = insert "j2" init_roster.jets_def ∧
    (build_jet 8 3 "j2" init_roster).njets = init_roster.njets ∧
    build_jet 2 3 "j2" init_roster = init_roster := by
  obtain ⟨h1, h2⟩ := (c3_build_jet_registers 8 3 "j2" init_roster).1 (by norm_num)
  exact ⟨h1, h2, (c3_build_jet_registers 2 3 "j2" init_roster).2 (by norm_num)⟩

/-- C5: with at least one enemy vehicle present, the base is flagged under
attack exactly when the minimum distance to an enemy vehicle is strictly below
100 (equivalently, some enemy is strictly within 100); when every enemy is at
distance 100 or more, absence is recorded; and any recorded position is that
of a nearest enemy vehicle. -/
theorem c5_threat_flag (d : EnemyVehicle → ℚ) (v : EnemyVehicle) (l : List EnemyVehicle) :
    ((threat_for_base d (v :: l)).isSome = true ↔ ∃ e ∈ v :: l, d e < 100) ∧
    ((∀ e ∈ v :: l, 100 ≤ d e) → threat_for_base d (v :: l) = none) ∧
    (∀ p, threat_for_base d (v :: l) = some p →
      ∃ e ∈ v :: l, (e.x, e.y) = p ∧ ∀ f ∈ v :: l, d e ≤ d f) := by
  have hmem : py_min_aux d v l ∈ v :: l := by
    rcases py_min_aux_mem d l v with h | h
    · rw [h]; exact List.mem_cons_self v l
    · exact List.mem_cons_of_mem v h
  have hmin : ∀ e ∈ v :: l, d (py_min_aux d v l) ≤ d e := by
    intro e he
    rcases List.mem_cons.mp he with rfl | he
    · exact (py_min_aux_le d l e).1
    · exact (py_min_aux_le d l v).2 e he
  refine ⟨⟨?_, ?_⟩, ?_, ?_⟩
  · intro hsome
    by_cases hd : d (py_min_aux d v l) < 100
    · exact ⟨py_min_aux d v l, hmem, hd⟩
    · simp [threat_for_base, py_min, hd] at hsome
  · rintro ⟨e, he, hde⟩
    have hd : d (py_min_aux d v l) < 100 := lt_of_le_of_lt (hmin e he) hde
    simp [threat_for_base, py_min, hd]
  · intro hall
    have hd : ¬ d (py_min_aux d v l) < 100 := not_lt.mpr (hall _ hmem)
    simp [threat_for_base, py_min, hd]
  · intro p hp
    by_cases hd : d (py_min_aux d v l) < 100
    · refine ⟨py_min_aux d v l, hmem, ?_, hmin⟩
      simpa [threat_for_base, py_min, hd] using hp
    · simp [threat_for_base, py_min, hd] at hp

/-- Witness for C5: with the distance function picking the x coordinate, an
enemy at key 50 flags the base; enemies at keys 100 and 120 do not. -/
theorem c5_threat_flag_witness :
    (threat_for_base (fun e => e.x) [⟨50, 0⟩]).isSome = true ∧
    threat_for_base (fun e => e.x) [⟨100, 0⟩, ⟨120, 3⟩] = none :=
  ⟨(c5_threat_flag (fun e => e.x) ⟨50, 0⟩ []).1.mpr
      ⟨⟨50, 0⟩, List.mem_cons_self _ _, by norm_num⟩,
   (c5_threat_flag (fun e => e.x) ⟨100, 0⟩ [⟨120, 3⟩]).2.1 (by
      rintro e he
      rcases List.mem_cons.mp he with rfl | he
      · norm_num
      · rcases List.mem_cons.mp he with rfl | he
        · norm_num
        · simp at he)⟩

/-- C2 counterexample: two rosters with identical (mine count, defense-tank
set size, attack-tank set size, ship set size, jet set size) tuples but
different all-time ship counters make `get_next_stage` choose different
actions, because the ships-stage skip guard reads `nships`. -/
theorem c2_counterexample :
    (let ra : BaseRoster := { init_roster with tanks_def := {"a", "b", "c"}, tanks_att := {"d"} }
     let rb : BaseRoster := { ra with nships := 5 }
     ra.tanks_def.card = rb.tanks_def.card ∧
     ra.tanks_att.card = rb.tanks_att.card ∧
     ra.ships.card = rb.ships.card ∧
     ra.jets_def.card = rb.jets_def.card ∧
     (get_next_stage 3 ra 0).1 = .build_ship ∧
     (get_next_stage 3 rb 0).1 = .build_tank_def ∧
     (get_next_stage 3 ra 0).1 ≠ (get_next_stage 3 rb 0).1) := by
  refine ⟨rfl, rfl, rfl, rfl, ?_, ?_, ?_⟩ <;> decide

/-- C2 amended: whenever some stage is unsatisfied, the chosen action is a
function of the tuple (mine count, defense-tank set size, attack-tank set
size, ship set size, jet set size) extended with the all-time ship counter
`nships`, and is independent of the rotation index; only the all-satisfied
fallback consults (and advances) the per-base rotation. -/
theorem c2_stage_selection_determined (mines : Nat) (r r' : BaseRoster) (i j : Nat)
    (h1 : r.tanks_def.card = r'.tanks_def.card)
    (h2 : r.tanks_att.card = r'.tanks_att.card)
    (h3 : r.ships.card = r'.ships.card)
    (h4 : r.jets_def.card = r'.jets_def.card)
    (h5 : r.nships = r'.nships)
    (hsome : (scan_stages mines r stages 0).isSome = true) :
    (get_next_stage mines r i).1 = (get_next_stage mines r' j).1 ∧
    (get_next_stage mines r i).2 = i := by
  have hs := scan_stages_congr mines r r' h1 h2 h3 h4 h5 stages 0
  cases hh : scan_stages mines r stages 0 with
  | none => rw [hh] at hsome; simp at hsome
  | some x =>
      have hh' : scan_stages mines r' stages 0 = some x := by rw [← hs, hh]
      simp [get_next_stage, hh, hh']

/-- Witness for C2's amended statement: a roster with an unsatisfied stage
chooses the same action at rotation indices 0 and 7. -/
theorem c2_stage_selection_determined_witness :
    (get_next_stage 0 init_roster 0).1 = (get_next_stage 0 init_roster 7).1 ∧
    (get_next_stage 0 init_roster 0).2 = 0 :=
  c2_stage_selection_determined 0 init_roster init_roster 0 7 rfl rfl rfl rfl rfl
    (by decide)

/-- C4: once every stage threshold is satisfied, successive calls to
`get_next_stage` walk the 4-element fallback rotation one element per call;
from a fresh rotation the five actions are defense tank, jet, attack tank,
ship, defense tank, and in general the 5th call repeats the 1st. -/
theorem c4_fallback_rotation (mines : Nat) (r : BaseRoster)
    (hsat : scan_stages mines r stages 0 = none) (i : Nat) :
    call_seq mines r 5 i =
      [cycle i, cycle (i + 1), cycle (i + 2), cycle (i + 3), cycle (i + 4)] ∧
    cycle (i + 4) = cycle i ∧
    call_seq mines r 5 0 =
      [.build_tank_def, .build_jet, .build_tank_att, .build_ship, .build_tank_def] := by
  have hstep : ∀ j, get_next_stage mines r j = (cycle j, j + 1) := by
    intro j
    simp [get_next_stage, hsat]
  have hcons : ∀ (n j : Nat),
      call_seq mines r (n + 1) j = cycle j :: call_seq mines r n (j + 1) := by
    intro n j
    show (get_next_stage mines r j).1 :: call_seq mines r n (get_next_stage mines r j).2
        = _
    rw [hstep]
  have hrun : ∀ j, call_seq mines r 5 j =
      [cycle j, cycle (j + 1), cycle (j + 2), cycle (j + 3), cycle (j + 4)] := by
    intro j
    rw [show (5 : Nat) = 4 + 1 from rfl, hcons, show (4 : Nat) = 3 + 1 from rfl,
      hcons, show (3 : Nat) = 2 + 1 from rfl, hcons, show (2 : Nat) = 1 + 1 from rfl,
      hcons, show (1 : Nat) = 0 + 1 from rfl, hcons]
    rfl
  refine ⟨hrun i, ?_, ?_⟩
  · unfold cycle
    rw [Nat.add_mod_right]
  · rw [hrun 0]
    rfl

/-- Witness for C4 on a fully stocked roster, starting the rotation at 0. -/
theorem c4_fallback_rotation_witness :
    call_seq 3
      { ntanks_def := 10, ntanks_att := 5, nships := 3, njets := 2
        tanks_def := {"d1", "d2", "d3", "d4", "d5", "d6", "d7", "d8", "d9", "e1"}
        tanks_att := {"a1", "a2", "a3", "a4", "a5"}
        ships := {"s1", "s2", "s3"}, jets_def := {"q1", "q2"} } 5 0 =
      [.build_tank_def, .build_jet, .build_tank_att, .build_ship, .build_tank_def] :=
  (c4_fallback_rotation 3 _ (by decide) 0).2.2

/-- C9: the per-base ship counter never decreases under any roster operation
(reconciliation in particular leaves it untouched, removing dead ships only
from the ship set), and the ships-stage skip guard reads only `nships` and the
jet set, so it compares the threshold against the all-time number of ships
built, not the live ship count. -/
theorem c9_nships_all_time :
    (∀ (op : RosterOp) (r : BaseRoster), r.nships ≤ (op.apply r).nships) ∧
    (∀ (ts ss js : List String) (r : BaseRoster),
      (update_vehicles ts ss js r).nships = r.nships ∧
      (update_vehicles ts ss js r).ships = r.ships.filter (· ∈ ss)) ∧
    (∀ (r r' : BaseRoster) (c : Nat), r.nships = r'.nships → r.jets_def = r'.jets_def →
      already_built_ships_and_not_jet r c = already_built_ships_and_not_jet r' c) := by
  refine ⟨?_, ?_, ?_⟩
  · intro op r
    cases op <;>
      simp only [RosterOp.apply, build_tank_def, build_tank_att, build_ship, build_jet,
        update_vehicles, reassign_on_base_loss] <;>
      (try split) <;> simp
  · intro ts ss js r
    exact ⟨rfl, rfl⟩
  · intro r r' c h5 h6
    simp [already_built_ships_and_not_jet, h5, h6]

/-- Witness for C9: a live-ship removal keeps the counter, and the guard
ignores the ship set. -/
theorem c9_nships_all_time_witness :
    init_roster.nships ≤
      ((RosterOp.op_update_vehicles [] [] []).apply init_roster).nships ∧
    (update_vehicles [] [] [] init_roster).nships = init_roster.nships ∧
    already_built_ships_and_not_jet init_roster 2 =
      already_built_ships_and_not_jet { init_roster with ships := {"s1"} } 2 :=
  ⟨c9_nships_all_time.1 (RosterOp.op_update_vehicles [] [] []) init_roster,
   (c9_nships_all_time.2.1 [] [] [] init_roster).1,
   c9_nships_all_time.2.2 init_roster { init_roster with ships := {"s1"} } 2 rfl rfl⟩

/-- C7: the defense-tank set and the attack-tank set of a base are disjoint at
initialization, and every roster operation (build registration with an
engine-fresh uid, reconciliation, and the defense-to-attack reassignment on
base loss) preserves that disjointness. -/
theorem c7_tank_roles_disjoint :
    Disjoint init_roster.tanks_def init_roster.tanks_att ∧
    ∀ (op : RosterOp) (r : BaseRoster), op.fresh r →
      Disjoint r.tanks_def r.tanks_att →
      Disjoint (op.apply r).tanks_def (op.apply r).tanks_att := by
  constructor
  · simp [init_roster]
  · intro op r hf hd
    cases op with
    | op_build_tank_def crystal cost uid =>
        obtain ⟨-, h2⟩ := hf
        simp only [RosterOp.apply, build_tank_def]
        split
        · exact Finset.disjoint_insert_left.mpr ⟨h2, hd⟩
        · exact hd
    | op_build_tank_att crystal cost uid =>
        obtain ⟨h1, -⟩ := hf
        simp only [RosterOp.apply, build_tank_att]
        split
        · exact Finset.disjoint_insert_right.mpr ⟨h1, hd⟩
        · exact hd
    | op_build_ship crystal cost uid =>
        simp only [RosterOp.apply, build_ship]
        split <;> exact hd
    | op_build_jet crystal cost uid =>
        simp only [RosterOp.apply, build_jet]
        split <;> exact hd
    | op_update_vehicles ts ss js =>
        simp only [RosterOp.apply, update_vehicles]
        exact Finset.disjoint_filter_filter hd
    | op_reassign_on_base_loss uid =>
        simp only [RosterOp.apply, reassign_on_base_loss]
        split
        · refine Finset.disjoint_insert_right.mpr ⟨Finset.not_mem_erase _ _, ?_⟩
          exact Finset.disjoint_of_subset_left (Finset.erase_subset _ _) hd
        · exact hd

/-- Witness for C7: the reassignment of a defense tank of a one-tank roster
keeps the two sets disjoint. -/
theorem c7_tank_roles_disjoint_witness :
    Disjoint
      ((RosterOp.op_reassign_on_base_loss "t1").apply
        { init_roster with tanks_def := {"t1"} }).tanks_def
      ((RosterOp.op_reassign_on_base_loss "t1").apply
        { init_roster with tanks_def := {"t1"} }).tanks_att :=
  c7_tank_roles_disjoint.2 (RosterOp.op_reassign_on_base_loss "t1")
    { init_roster with tanks_def := {"t1"} } trivial (by simp [init_roster])

/-- C10 counterexample: no roster satisfies all stages before index 8 while
having fewer than 2 live ships and an untriggered skip guard — the index-5
stage ("ships", 2, build_ship) has exactly that trigger and would be
unsatisfied — so stage selection never returns the jet build through the
index-8 entry as the claim asserts. -/
theorem c10_counterexample :
    ¬ ∃ (mines : Nat) (r : BaseRoster) (i : Nat),
      (∀ st ∈ stages.take 8, stage_unsatisfied mines r st = false) ∧
      r.ships.card < 2 ∧
      already_built_ships_and_not_jet r 2 = false ∧
      (get_next_stage mines r i).1 = .build_jet := by
  rintro ⟨m, r, i, hsat, hships, hguard, -⟩
  have hmem : (⟨Item.ships, 2, Action.build_ship⟩ : Stage) ∈ stages.take 8 := by decide
  have h5 := hsat _ hmem
  rw [show stage_unsatisfied m r ⟨Item.ships, 2, Action.build_ship⟩
      = (!already_built_ships_and_not_jet r 2 && decide (r.ships.card < 2)) from rfl,
    hguard] at h5
  simp at h5
  omega

/-- The stage scan distributes over list append, continuing at the shifted
start index. -/
theorem scan_stages_append (mines : Nat) (r : BaseRoster) :
    ∀ (l1 l2 : List Stage) (i : Nat),
      scan_stages mines r (l1 ++ l2) i =
        match scan_stages mines r l1 i with
        | some x => some x
        | none => scan_stages mines r l2 (i + l1.length) := by
  intro l1
  induction l1 with
  | nil => intro l2 i; rfl
  | cons st rest ih =>
      intro l2 i
      simp only [List.cons_append, scan_stages, List.append_eq]
      by_cases hc : stage_unsatisfied mines r st = true
      · rw [if_pos hc, if_pos hc]
      · rw [if_neg hc, if_neg hc, ih]
        have harith : i + 1 + rest.length = i + (rest.length + 1) := by omega
        simp only [List.length_cons, harith]

/-- The stage scan returns nothing exactly when every stage is satisfied. -/
theorem scan_stages_eq_none (mines : Nat) (r : BaseRoster) :
    ∀ (l : List Stage) (i : Nat),
      scan_stages mines r l i = none ↔
        ∀ st ∈ l, stage_unsatisfied mines r st = false := by
  intro l
  induction l with
  | nil => intro i; simp [scan_stages]
  | cons st rest ih =>
      intro i
      simp only [scan_stages]
      by_cases hc : stage_unsatisfied mines r st = true
      · simp [hc]
      · simp only [if_neg hc, ih (i + 1)]
        constructor
        · intro hall s hs
          rcases List.mem_cons.mp hs with rfl | hs
          · exact Bool.eq_false_iff.mpr hc
          · exact hall s hs
        · intro hall s hs
          exact hall s (List.mem_cons_of_mem st hs)

/-- The chosen action of the stage scan does not depend on the start index. -/
theorem scan_stages_map_snd_shift (mines : Nat) (r : BaseRoster) :
    ∀ (l : List Stage) (i j : Nat),
      (scan_stages mines r l i).map Prod.snd =
      (scan_stages mines r l j).map Prod.snd := by
  intro l
  induction l with
  | nil => intro i j; rfl
  | cons st rest ih =>
      intro i j
      simp only [scan_stages]
      by_cases hc : stage_unsatisfied mines r st = true
      · rw [if_pos hc, if_pos hc]
        rfl
      · rw [if_neg hc, if_neg hc, ih (i + 1) (j + 1)]

/-- A satisfied head stage is skipped by the scan. -/
theorem scan_stages_cons_false (mines : Nat) (r : BaseRoster) (st : Stage)
    (post : List Stage) (i : Nat) (h : stage_unsatisfied mines r st = false) :
    scan_stages mines r (st :: post) i = scan_stages mines r post (i + 1) := by
  simp [scan_stages, h]

/-- A stage whose trigger equals that of some stage occurring earlier in the
list never contributes the chosen action: the scan picks the same action with
or without it. -/
theorem scan_stages_skip_dup (mines : Nat) (r : BaseRoster)
    (pre post : List Stage) (st dup : Stage)
    (hdup : stage_unsatisfied mines r dup = stage_unsatisfied mines r st)
    (hmem : st ∈ pre) (i : Nat) :
    (scan_stages mines r (pre ++ dup :: post) i).map Prod.snd =
    (scan_stages mines r (pre ++ post) i).map Prod.snd := by
  rw [scan_stages_append, scan_stages_append]
  cases hpre : scan_stages mines r pre i with
  | some x => rfl
  | none =>
      have hst : stage_unsatisfied mines r st = false :=
        (scan_stages_eq_none mines r pre i).mp hpre st hmem
      rw [scan_stages_cons_false mines r dup post _ (hdup.trans hst)]
      exact scan_stages_map_snd_shift mines r post _ _

/-- C10 amended: the stage table entry at index 8 is a ships-category stage
(threshold 2) carrying the jet build action, but it is dead configuration: its
trigger is identical to that of the earlier index-5 ships stage, so the stage
scan selects the same action with or without the index-8 entry, and that entry
never produces a jet build. -/
theorem c10_stage8_dead :
    stages.get? 8 = some ⟨.ships, 2, .build_jet⟩ ∧
    ∀ (mines : Nat) (r : BaseRoster),
      (scan_stages mines r stages 0).map Prod.snd =
      (scan_stages mines r (stages.eraseIdx 8) 0).map Prod.snd := by
  refine ⟨rfl, ?_⟩
  intro m r
  exact scan_stages_skip_dup m r
    [ ⟨.mines, 2, .build_mine⟩
    , ⟨.tanks_def, 3, .build_tank_def⟩
    , ⟨.ships, 1, .build_ship⟩
    , ⟨.tanks_att, 1, .build_tank_att⟩
    , ⟨.mines, 3, .build_mine⟩
    , ⟨.ships, 2, .build_ship⟩
    , ⟨.tanks_def, 6, .build_tank_def⟩
    , ⟨.jets, 1, .build_jet⟩ ]
    [ ⟨.tanks_def, 9, .build_tank_def⟩
    , ⟨.tanks_att, 2, .build_tank_att⟩
    , ⟨.ships, 2, .build_ship⟩
    , ⟨.jets, 2, .build_jet⟩
    , ⟨.ships, 3, .build_ship⟩
    , ⟨.tanks_def, 10, .build_tank_def⟩
    , ⟨.jets, 1, .build_jet⟩
    , ⟨.tanks_att, 5, .build_tank_att⟩ ]
    ⟨.ships, 2, .build_ship⟩ ⟨.ships, 2, .build_jet⟩
    rfl (by decide) 0

/-- Membership of a key absent from every mapped base uid yields the
`defaultdict(None)` `KeyError`. -/
theorem dd_get_map_of_absent {β : Type} (f : BaseInfo → β) (u : String) :
    ∀ (bs : List BaseInfo), (∀ b ∈ bs, b.uid ≠ u) →
      dd_get (bs.map fun b => (b.uid, f b)) u = .error () := by
  intro bs
  induction bs with
  | nil => intro _; rfl
  | cons b bs ih =>
      intro h
      have hb : (b.uid == u) = false :=
        beq_eq_false_iff_ne.mpr (h b (List.mem_cons_self b bs))
      have hrest := ih fun x hx => h x (List.mem_cons_of_mem b hx)
      simp only [dd_get, List.map_cons, List.find?_cons] at hrest ⊢
      simp only [hb]
      exact hrest

/-- A jet whose under-attack lookup raises aborts its whole per-jet step. -/
theorem jet_step_error_of_lookup (gd : ℚ × ℚ → ℚ × ℚ → ℚ)
    (under_attack : List (String × Option (ℚ × ℚ)))
    (target_per_base : List (String × Option BaseInfo))
    (all_bases my_bases : List BaseInfo) (enemy_ships : List ShipInfo)
    (prev : Option (ℚ × ℚ)) (rand1 rand2 : ℚ) (jet : JetInfo)
    (hdd : dd_get under_attack jet.owner_uid = .error ()) :
    jet_step gd under_attack target_per_base all_bases my_bases enemy_ships
      prev rand1 rand2 jet = .error () := by
  unfold jet_step
  rw [hdd]
  rfl

/-- C1 counterexample: a tick whose snapshot holds one owned jet whose owning
base uid ("b1") appears in no team's base list makes the jet loop raise
`KeyError` on the under-attack lookup: the per-tick run call does not complete
normally. -/
theorem c1_counterexample :
    run_jets (fun _ _ => 0)
      (bases_under_attack_map (fun _ _ => 0) [⟨"b2", 5, 5⟩] [])
      (get_target_per_base (fun _ _ => 0) [⟨"b2", 5, 5⟩] [])
      [⟨"b2", 5, 5⟩] [⟨"b2", 5, 5⟩] [] [] 0 0
      [⟨"j1", "b1", 0, 0, 0⟩] = .error () := rfl

/-- C1 amended: whenever the agent owns a jet whose owning base is absent from
the agent's live base list (from which both this tick's under-attack map and
target map are keyed), the jet loop raises `KeyError` on the
`bases_under_attack[jet.owner.uid]` lookup and the per-tick run call aborts
instead of completing. -/
theorem c1_dead_owner_raises (gd : ℚ × ℚ → ℚ × ℚ → ℚ)
    (my_bases all_bases : List BaseInfo) (enemy_vehicles : List EnemyVehicle)
    (enemy_bases : List BaseInfo) (enemy_ships : List ShipInfo)
    (previous_positions : List (String × (ℚ × ℚ))) (rand1 rand2 : ℚ)
    (jets : List JetInfo) :
    (∃ j ∈ jets, ∀ b ∈ my_bases, b.uid ≠ j.owner_uid) →
    run_jets gd (bases_under_attack_map gd my_bases enemy_vehicles)
      (get_target_per_base gd my_bases enemy_bases)
      all_bases my_bases enemy_ships previous_positions rand1 rand2 jets
      = .error () := by
  induction jets with
  | nil =>
      intro h
      simp at h
  | cons j l ih =>
      intro hdead
      obtain ⟨j0, hj0, hdead0⟩ := hdead
      unfold run_jets
      rw [List.mapM_cons]
      rcases List.mem_cons.mp hj0 with rfl | hmem
      · have hdd : dd_get (bases_under_attack_map gd my_bases enemy_vehicles)
            j0.owner_uid = .error () := by
          unfold bases_under_attack_map
          exact dd_get_map_of_absent _ _ my_bases hdead0
        rw [jet_step_error_of_lookup _ _ _ _ _ _ _ _ _ _ hdd]
        rfl
      · cases hstep : jet_step gd (bases_under_attack_map gd my_bases enemy_vehicles)
            (get_target_per_base gd my_bases enemy_bases) all_bases my_bases enemy_ships
            ((previous_positions.find? (fun p => p.1 == j.uid)).map (·.2))
            rand1 rand2 j with
        | error e =>
            cases e
            rfl
        | ok v =>
            have hrec := ih ⟨j0, hmem, hdead0⟩
            unfold run_jets at hrec
            rw [hrec]
            rfl

/-- Witness for C1's amended statement: one stray jet owned by the destroyed
base "b9", with a single live own base "b0". -/
theorem c1_dead_owner_raises_witness :
    run_jets (fun _ _ => 1)
      (bases_under_attack_map (fun _ _ => 1) [⟨"b0", 2, 3⟩] [⟨4, 4⟩])
      (get_target_per_base (fun _ _ => 1) [⟨"b0", 2, 3⟩] [])
      [⟨"b0", 2, 3⟩] [⟨"b0", 2, 3⟩] [] [] 0 0
      [⟨"j9", "b9", 1, 2, 3⟩] = .error () :=
  c1_dead_owner_raises (fun _ _ => 1) [⟨"b0", 2, 3⟩] [⟨"b0", 2, 3⟩] [⟨4, 4⟩] [] []
    [] 0 0 [⟨"j9", "b9", 1, 2, 3⟩]
    ⟨⟨"j9", "b9", 1, 2, 3⟩, List.mem_cons_self _ _, by decide⟩

end ChaosMonkeys
